import Mathlib

/-!
Shallow embedding of the Question Engine (MathEngine.js) and Progress Model
(ProgressManager.js) of the gorilla-tag-fun repository, together with the
shared validation utilities (src/utils/validators.js).

Modelling conventions:
* JS numbers that only ever hold integers are modelled as `Int` (or `Nat` for
  counters that start at 0 and are only incremented); the accuracy percentage
  is modelled as `ℚ` since it is a true division.
* `Math.random()`-driven choices are surfaced as explicit parameters
  (an index for array selection, the two sampled operands) so that the
  functions stay pure; `Date.now()` is likewise an explicit parameter.
* JS `null`/`undefined` and thrown exceptions become `Option`.
* Strings are Lean `String`s, manipulated through their character lists.
-/

namespace GorillaMath

/-- Characters treated as whitespace by the JS `String.prototype.trim` calls
in the sources (ASCII whitespace suffices for the inputs involved). -/
def isJsSpace (c : Char) : Bool :=
  c = ' ' || c = '\t' || c = '\n' || c = '\r' || c = Char.ofNat 11 || c = Char.ofNat 12

/-- JS `String.prototype.trim`: drop leading and trailing whitespace. -/
def jsTrim (s : String) : String :=
  ⟨((s.data.dropWhile isJsSpace).reverse.dropWhile isJsSpace).reverse⟩

/-- Decimal value of a list of digit characters (used by `parseIntJS`). -/
def digitsToNat (l : List Char) : Nat :=
  l.foldl (fun acc c => acc * 10 + (c.toNat - '0'.toNat)) 0

/-- JS `parseInt(s, 10)`: skip leading whitespace, read an optional sign,
then the longest prefix of decimal digits; `NaN` (here `none`) if that
prefix is empty.  Trailing garbage is ignored, exactly as in JS. -/
def parseIntJS (s : String) : Option Int :=
  let l := s.data.dropWhile isJsSpace
  let sign : Int := if l.head? = some '-' then -1 else 1
  let rest := if l.head? = some '-' || l.head? = some '+' then l.tail else l
  let ds := rest.takeWhile Char.isDigit
  if ds.isEmpty then none else some (sign * (digitsToNat ds : Int))

/-- JS `String.prototype.replace` with a plain-string pattern: replace the
first occurrence of `pat` only.  (All uses in the source have a non-empty
pattern and a replacement with no `$` escapes.) -/
def replaceFirstAux (pat rep : List Char) : List Char → List Char
  | [] => []
  | c :: rest =>
    if (c :: rest).take pat.length = pat then
      rep ++ (c :: rest).drop pat.length
    else
      c :: replaceFirstAux pat rep rest

/-- String wrapper for `replaceFirstAux`. -/
def replaceFirst (s pat rep : String) : String :=
  ⟨replaceFirstAux pat.data rep.data s.data⟩

/-- A question template (MathEngine.js question bank entry).  The JS `type`
field is called `qtype` (`type` is reserved in Lean). -/
structure Template where
  id : String
  qtype : String
  operation : String
  template : String
  minValue : Int
  maxValue : Int
  visualHint : Bool := false
  hintType : Option String := none
deriving DecidableEq

/-- A generated question (the object literal built by
`MathEngine.generateQuestion` / `generateFallbackQuestion`).  The JS
`values: { a, b }` pair is the fields `valA`, `valB`. -/
structure Question where
  id : String
  qtype : String
  operation : String
  questionText : String
  answer : Int
  visualHint : Bool
  hintType : Option String
  valA : Int
  valB : Int
  difficulty : String
deriving DecidableEq

namespace MathEngine

/-- `MathEngine.sanitizeInput` (MathEngine.js lines 249-256): stringify,
trim, and delete every character that is not a digit or a minus sign.
Note: unlike `validators.js`, this version performs no minus-sign position
handling at all. -/
def sanitizeInput (s : String) : String :=
  ⟨(jsTrim s).data.filter (fun c => c.isDigit || c = '-')⟩

/-- `MathEngine.generateQuestion` (MathEngine.js lines 93-135) with the two
`randomInt(template.minValue, template.maxValue)` draws surfaced as the
parameters `a`, `b`, and `Date.now()` as `now`.  Console warnings are
side effects with no data flow and are dropped. -/
def generateQuestion (currentDifficulty : String) (t : Template) (a b : Int)
    (now : Nat) : Question :=
  let answer : Int :=
    if t.operation = "addition" then a + b
    else if t.operation = "subtraction" then max a b - min a b
    else a + b
  let baseText :=
    replaceFirst (replaceFirst t.template "{a}" (toString a)) "{b}" (toString b)
  let questionText :=
    if t.operation = "subtraction" then
      replaceFirst (replaceFirst t.template "{a}" (toString (max a b)))
        "{b}" (toString (min a b))
    else baseText
  { id := t.id ++ "_" ++ toString now
    qtype := t.qtype
    operation := t.operation
    questionText := questionText
    answer := answer
    visualHint := t.visualHint
    hintType := t.hintType
    valA := a
    valB := b
    difficulty := currentDifficulty }

/-- The result object of `MathEngine.validateAnswer`.  The `message` field is
chosen by `Math.random` from fixed pools and carries no data used anywhere;
it is omitted.  Fields absent from the early-return object literals
(`close`, `userAnswer`, `correctAnswer` on the failure paths) are `false`
resp. `none`, matching JS `undefined` read as falsy. -/
structure ValidationResult where
  valid : Bool
  correct : Bool
  close : Bool
  userAnswer : Option Int
  correctAnswer : Option Int
deriving DecidableEq

/-- `MathEngine.validateAnswer` (MathEngine.js lines 143-183).  The JS
`correctAnswer = null` default argument and the `this.currentQuestion`
fallback are the two `Option` parameters.  `isValidNumber(parseInt(c))`
holds exactly when `parseIntJS c` succeeds, since a successfully parsed
integer is never `NaN`, always finite, and never `''`. -/
def validateAnswer (userInput : String) (correctAnswer : Option Int)
    (currentQuestion : Option Question) : ValidationResult :=
  let expected : Option Int :=
    match correctAnswer with
    | some c => some c
    | none => currentQuestion.map (fun q => q.answer)
  match expected with
  | none =>
    { valid := false, correct := false, close := false
      userAnswer := none, correctAnswer := none }
  | some exp =>
    let cleaned := sanitizeInput userInput
    match parseIntJS cleaned with
    | none =>
      { valid := false, correct := false, close := false
        userAnswer := none, correctAnswer := none }
    | some ua =>
      let isCorrect : Bool := ua == exp
      let isClose : Bool := decide ((ua - exp).natAbs ≤ 2)
      { valid := true
        correct := isCorrect
        close := !isCorrect && isClose
        userAnswer := some ua
        correctAnswer := some exp }

/-- The valid difficulty levels (`const validLevels` in `setDifficulty`). -/
def validLevels : List String := ["easy", "medium", "hard"]

/-- `maxRecentQuestions` (constructor field, always 3). -/
def maxRecentQuestions : Nat := 3

/-- The mutable fields of a `MathEngine` instance.  The question bank is an
association list mirroring a JS object keyed by difficulty name. -/
structure EngineState where
  questionBank : Option (List (String × List Template))
  currentDifficulty : String
  recentQuestions : List String
  currentQuestion : Option Question
deriving DecidableEq

/-- `MathEngine.setDifficulty` (MathEngine.js lines 34-45).  Note the
early return on an invalid level: `recentQuestions` is NOT cleared there. -/
def setDifficulty (st : EngineState) (level : String) : EngineState :=
  if !(validLevels.contains level) then
    { st with currentDifficulty := "easy" }
  else
    { st with currentDifficulty := level, recentQuestions := [] }

/-- `MathEngine.addToRecentQuestions` (MathEngine.js lines 235-242):
push, then shift once if the list exceeds `maxRecentQuestions`. -/
def addToRecentQuestions (recent : List String) (questionId : String) :
    List String :=
  let r := recent ++ [questionId]
  if r.length > maxRecentQuestions then r.drop 1 else r

/-- `MathEngine.getRandomElement` (MathEngine.js lines 282-287) with the
`Math.floor(Math.random() * array.length)` draw surfaced as `choice % length`
(every index below the length is reachable; `null` on an empty array). -/
def getRandomElement {α : Type} (l : List α) (choice : Nat) : Option α :=
  if h : 0 < l.length then some (l.get ⟨choice % l.length, Nat.mod_lt choice h⟩)
  else none

/-- `MathEngine.generateFallbackQuestion` (MathEngine.js lines 293-309) with
its two `randomInt(1, 10)` draws surfaced as `a`, `b`. -/
def generateFallbackQuestion (a b : Int) (now : Nat) : Question :=
  { id := "fallback_" ++ toString now
    qtype := "equation"
    operation := "addition"
    questionText := toString a ++ " + " ++ toString b ++ " = ?"
    answer := a + b
    visualHint := false
    hintType := none
    valA := a
    valB := b
    difficulty := "easy" }

/-- `MathEngine.getDefaultQuestionBank` (MathEngine.js lines 315-418),
translated verbatim. -/
def getDefaultQuestionBank : List (String × List Template) :=
  [ ("easy",
      [ { id := "add_easy_001", qtype := "equation", operation := "addition"
          template := "{a} + {b} = ?", minValue := 0, maxValue := 10
          visualHint := true, hintType := some "bananas" }
      , { id := "add_easy_002", qtype := "word-problem", operation := "addition"
          template := "The gorilla found {a} bananas. Then found {b} more. How many total?"
          minValue := 0, maxValue := 10
          visualHint := true, hintType := some "bananas" }
      , { id := "sub_easy_001", qtype := "equation", operation := "subtraction"
          template := "{a} - {b} = ?", minValue := 0, maxValue := 10
          visualHint := true, hintType := some "bananas" }
      , { id := "sub_easy_002", qtype := "word-problem", operation := "subtraction"
          template := "The gorilla had {a} bananas and ate {b}. How many are left?"
          minValue := 0, maxValue := 10
          visualHint := true, hintType := some "bananas" } ])
  , ("medium",
      [ { id := "add_medium_001", qtype := "equation", operation := "addition"
          template := "{a} + {b} = ?", minValue := 10, maxValue := 25 }
      , { id := "sub_medium_001", qtype := "equation", operation := "subtraction"
          template := "{a} - {b} = ?", minValue := 10, maxValue := 25 }
      , { id := "add_medium_002", qtype := "word-problem", operation := "addition"
          template := "The gorilla swung past {a} vines and then {b} more. How many vines total?"
          minValue := 10, maxValue := 25 } ])
  , ("hard",
      [ { id := "add_hard_001", qtype := "equation", operation := "addition"
          template := "{a} + {b} = ?", minValue := 25, maxValue := 50 }
      , { id := "sub_hard_001", qtype := "equation", operation := "subtraction"
          template := "{a} - {b} = ?", minValue := 25, maxValue := 50 }
      , { id := "add_hard_002", qtype := "word-problem", operation := "addition"
          template := "The gorilla collected {a} bananas yesterday and {b} today. How many total?"
          minValue := 25, maxValue := 50 } ]) ]

/-- The recently-used filter inside `getNextQuestion` (lines 66-68). -/
def availableOf (pool : List Template) (recent : List String) : List Template :=
  pool.filter (fun t => !(recent.contains t.id))

/-- The candidate set of `getNextQuestion` (line 71): the filtered pool, or
the unfiltered pool when filtering emptied it. -/
def questionPoolOf (pool : List Template) (recent : List String) :
    List Template :=
  let available := availableOf pool recent
  if available.length > 0 then available else pool

/-- `MathEngine.getNextQuestion` (MathEngine.js lines 51-86).  The random
template choice is `choice`, the sampled operands are `a`, `b`, time is
`now`.  Returns the question (`none` would model the crash that JS would
hit if `getRandomElement` returned `null`; this is proved unreachable)
together with the updated engine state.  Note that the fallback path
returns before `currentQuestion` is assigned. -/
def getNextQuestion (st : EngineState) (choice : Nat) (a b : Int) (now : Nat) :
    Option Question × EngineState :=
  let bank := st.questionBank.getD getDefaultQuestionBank
  let st0 := { st with questionBank := some bank }
  match List.lookup st0.currentDifficulty bank with
  | none => (some (generateFallbackQuestion a b now), st0)
  | some pool =>
    if pool.length = 0 then (some (generateFallbackQuestion a b now), st0)
    else
      match getRandomElement (questionPoolOf pool st0.recentQuestions) choice with
      | none => (none, st0)
      | some t =>
        let q := generateQuestion st0.currentDifficulty t a b now
        (some q,
          { st0 with
            recentQuestions := addToRecentQuestions st0.recentQuestions t.id
            currentQuestion := some q })

/-- `MathEngine.reset` (MathEngine.js lines 431-434). -/
def reset (st : EngineState) : EngineState :=
  { st with currentQuestion := none, recentQuestions := [] }

end MathEngine

namespace Validators

/-- Stage 1 of `sanitizeInput` from src/utils/validators.js: the
`replace` (regex: any char that is not a digit or minus, global) removal of every character that is not a digit or
a minus sign. -/
def stripNonNumeric (l : List Char) : List Char :=
  l.filter (fun c => c.isDigit || c = '-')

/-- Stage 2 of `sanitizeInput` from src/utils/validators.js: `if
(cleaned.indexOf('-') > 0)` then replace every minus sign with nothing —
when the first minus sign sits at a position other than 0, drop all of
them. -/
def dropMisplacedMinus (l : List Char) : List Char :=
  if l.contains '-' && decide (0 < (l.takeWhile (fun c => c ≠ '-')).length)
  then l.filter (fun c => c ≠ '-')
  else l

/-- Stage 3 of `sanitizeInput` from src/utils/validators.js: `if
(cleaned.split('-').length > 2)` then prepend '-' to the string with every
minus sign removed — `split` produces `count + 1` parts, so two or more
minus signs collapse to a single leading one. -/
def collapseMinus (l : List Char) : List Char :=
  if l.count '-' + 1 > 2 then '-' :: l.filter (fun c => c ≠ '-') else l

/-- `sanitizeInput` from src/utils/validators.js (lines 49-69): trim, then
the three replacement stages in source order. -/
def sanitizeInput (s : String) : String :=
  ⟨collapseMinus (dropMisplacedMinus (stripNonNumeric (jsTrim s).data))⟩

/-- `isValidNumber` from src/utils/validators.js (lines 11-29), restricted to
the strings `validateAnswer` actually feeds it (outputs of `sanitizeInput`,
which consist of digits and minus signs only, with no whitespace).  On that
alphabet `Number(str)` is a non-NaN finite value exactly when the string is
an optional single leading minus followed by at least one digit; the
function additionally rejects the empty string up front. -/
def isValidNumber (s : String) : Bool :=
  if s = "" then false
  else if s.data.head? = some '-' then
    !s.data.tail.isEmpty && s.data.tail.all Char.isDigit
  else s.data.all Char.isDigit

/-- The result object of `validators.validateAnswer`. -/
structure ValResult where
  valid : Bool
  correct : Bool
  close : Bool
  value : Option Int
deriving DecidableEq

/-- `validateAnswer` from src/utils/validators.js (lines 77-107).  When the
guard passes but `parseInt` would still be `NaN` (impossible, proved
separately) the JS comparisons against `NaN` are all false, which the
`none` branch mirrors. -/
def validateAnswer (input : String) (expected : Int) : ValResult :=
  let cleaned := sanitizeInput input
  if !(isValidNumber cleaned) then
    { valid := false, correct := false, close := false, value := none }
  else
    match parseIntJS cleaned with
    | none => { valid := true, correct := false, close := false, value := none }
    | some ua =>
      let isCorrect : Bool := ua == expected
      let isClose : Bool := decide ((ua - expected).natAbs ≤ 2)
      { valid := true
        correct := isCorrect
        close := !isCorrect && isClose
        value := some ua }

end Validators

namespace ProgressManager

/-- The session record (`getDefaultSessionData` shape, ProgressManager.js
lines 460-474).  Counters that start at 0 and are only incremented are
`Nat`; score/bananas accept arbitrary added amounts and timestamps are
differences, so they are `Int`. -/
structure SessionData where
  difficulty : String
  currentQuestion : Nat
  totalQuestions : Nat
  score : Int
  correctAnswers : Nat
  incorrectAnswers : Nat
  totalAnswers : Nat
  bananasCollected : Int
  startTime : Int
  elapsedTime : Int
  starsEarned : Nat
deriving DecidableEq

/-- `ProgressManager.getDefaultSessionData` (lines 460-474); `Date.now()`
is the parameter `now`. -/
def getDefaultSessionData (now : Int) : SessionData :=
  { difficulty := "easy"
    currentQuestion := 0
    totalQuestions := 5
    score := 0
    correctAnswers := 0
    incorrectAnswers := 0
    totalAnswers := 0
    bananasCollected := 0
    startTime := now
    elapsedTime := 0
    starsEarned := 0 }

/-- The `preferences` object of the persistent record. -/
structure Preferences where
  soundEnabled : Bool
  musicEnabled : Bool
deriving DecidableEq

/-- The persistent record (`getDefaultPersistentData` shape, lines 480-503).
The per-tier maps are association lists mirroring JS objects keyed by tier
name. -/
structure PersistentData where
  playerId : String
  createdAt : Int
  lastPlayed : Int
  totalSessions : Nat
  totalBananas : Int
  totalStars : Nat
  levelsCompleted : List (String × List Nat)
  highScores : List (String × Int)
  preferences : Preferences
deriving DecidableEq

/-- `ProgressManager.getDefaultPersistentData` (lines 480-503);
`generatePlayerId()` and `Date.now()` are the parameters. -/
def getDefaultPersistentData (playerId : String) (now : Int) : PersistentData :=
  { playerId := playerId
    createdAt := now
    lastPlayed := now
    totalSessions := 0
    totalBananas := 0
    totalStars := 0
    levelsCompleted := [("easy", []), ("medium", []), ("hard", [])]
    highScores := [("easy", 0), ("medium", 0), ("hard", 0)]
    preferences := { soundEnabled := true, musicEnabled := true } }

/-- `ProgressManager.startSession` (lines 510-515): fresh defaults, then the
given difficulty, question count, and start time. -/
def startSession (now : Int) (difficulty : String) (totalQuestions : Nat) :
    SessionData :=
  { getDefaultSessionData now with
    difficulty := difficulty
    totalQuestions := totalQuestions
    startTime := now }

/-- `ProgressManager.incrementScore` (lines 521-528): negative points are
rejected (warning logged, state unchanged).  The JS `typeof` check is
subsumed by the `Int` type. -/
def incrementScore (sd : SessionData) (points : Int) : SessionData :=
  if points < 0 then sd else { sd with score := sd.score + points }

/-- `ProgressManager.recordAnswer` (lines 534-542). -/
def recordAnswer (sd : SessionData) (isCorrect : Bool) : SessionData :=
  let sd1 := { sd with totalAnswers := sd.totalAnswers + 1 }
  if isCorrect then { sd1 with correctAnswers := sd1.correctAnswers + 1 }
  else { sd1 with incorrectAnswers := sd1.incorrectAnswers + 1 }

/-- `ProgressManager.addBananas` (lines 548-555). -/
def addBananas (sd : SessionData) (count : Int) : SessionData :=
  if count < 0 then sd else
    { sd with bananasCollected := sd.bananasCollected + count }

/-- `ProgressManager.nextQuestion` (lines 560-562). -/
def nextQuestion (sd : SessionData) : SessionData :=
  { sd with currentQuestion := sd.currentQuestion + 1 }

/-- `ProgressManager.calculateAccuracy` (lines 568-574). -/
def calculateAccuracy (sd : SessionData) : ℚ :=
  if sd.totalAnswers = 0 then 0
  else ((sd.correctAnswers : ℚ) / (sd.totalAnswers : ℚ)) * 100

/-- `ProgressManager.calculateStars` (lines 580-593). -/
def calculateStars (sd : SessionData) : Nat :=
  let accuracy := calculateAccuracy sd
  if accuracy ≥ 95 then 3
  else if accuracy ≥ 80 then 2
  else if accuracy ≥ 60 then 1
  else 0

/-- `ProgressManager.updateElapsedTime` (lines 598-600). -/
def updateElapsedTime (now : Int) (sd : SessionData) : SessionData :=
  { sd with elapsedTime := now - sd.startTime }

/-- The results snapshot returned by `completeSession`. -/
structure SessionResults where
  score : Int
  accuracy : ℚ
  stars : Nat
  bananas : Int
  correctAnswers : Nat
  totalAnswers : Nat
  elapsedTime : Int
deriving DecidableEq

/-- JS `obj[k] = v` on an association list whose key is known to exist:
update the binding(s) of `k`, leave other keys alone. -/
def updateAssoc {β : Type} (l : List (String × β)) (k : String) (v : β) :
    List (String × β) :=
  match l with
  | [] => []
  | (k', v') :: rest =>
    if k' = k then (k', v) :: updateAssoc rest k v
    else (k', v') :: updateAssoc rest k v

/-- `ProgressManager.completeSession` (lines 606-643).  `Date.now()` is
`now`; instead of mutating `this`, the updated session and persistent
records are returned.  A JS object read `highScores[difficulty]` on a
missing key yields `undefined`, and `score > undefined` is false, so a
missing high-score key skips the update; the subsequent
`levelsCompleted[difficulty].length` on a missing key would throw a
TypeError, modelled as `none`.  The `saveProgress()` call serializes the
returned persistent record and has no effect on it. -/
def completeSession (now : Int) (sd : SessionData) (pd : PersistentData) :
    Option (SessionResults × SessionData × PersistentData) :=
  let sd1 := updateElapsedTime now sd
  let stars := calculateStars sd1
  let sd2 := { sd1 with starsEarned := stars }
  let pd1 :=
    { pd with
      totalSessions := pd.totalSessions + 1
      totalBananas := pd.totalBananas + sd2.bananasCollected
      totalStars := pd.totalStars + stars
      lastPlayed := now }
  let pd2 :=
    match List.lookup sd2.difficulty pd1.highScores with
    | some hs =>
      if sd2.score > hs then
        { pd1 with highScores := updateAssoc pd1.highScores sd2.difficulty sd2.score }
      else pd1
    | none => pd1
  match List.lookup sd2.difficulty pd2.levelsCompleted with
  | none => none
  | some lvls =>
    let levelNumber := lvls.length + 1
    let pd3 :=
      if lvls.contains levelNumber then pd2
      else
        { pd2 with
          levelsCompleted := updateAssoc pd2.levelsCompleted sd2.difficulty (lvls ++ [levelNumber]) }
    some
      ( { score := sd2.score
          accuracy := calculateAccuracy sd2
          stars := stars
          bananas := sd2.bananasCollected
          correctAnswers := sd2.correctAnswers
          totalAnswers := sd2.totalAnswers
          elapsedTime := sd2.elapsedTime }
      , sd2, pd3 )

/-- `ProgressManager.resetSession` (lines 722-724). -/
def resetSession (now : Int) : SessionData :=
  getDefaultSessionData now

/-- The payload of a successfully parsed stored record, as far as
`loadProgress` inspects it: the optional `persistent` top-level field,
itself a JS object whose top-level keys may each be present or absent
(the `{...defaults, ...data.persistent}` spread merges key-wise). -/
structure StoredPersistent where
  playerId : Option String := none
  createdAt : Option Int := none
  lastPlayed : Option Int := none
  totalSessions : Option Nat := none
  totalBananas : Option Int := none
  totalStars : Option Nat := none
  levelsCompleted : Option (List (String × List Nat)) := none
  highScores : Option (List (String × Int)) := none
  preferences : Option Preferences := none
deriving DecidableEq

/-- The parsed top-level storage object (only the `persistent` field is
read by `loadProgress`). -/
structure ParsedStored where
  persistent : Option StoredPersistent
deriving DecidableEq

/-- The `{...this.getDefaultPersistentData(), ...data.persistent}` spread
(lines 705-708): every top-level key present in the stored object wins,
missing keys come from the freshly built defaults. -/
def mergePersistent (base : PersistentData) (p : StoredPersistent) :
    PersistentData :=
  { playerId := p.playerId.getD base.playerId
    createdAt := p.createdAt.getD base.createdAt
    lastPlayed := p.lastPlayed.getD base.lastPlayed
    totalSessions := p.totalSessions.getD base.totalSessions
    totalBananas := p.totalBananas.getD base.totalBananas
    totalStars := p.totalStars.getD base.totalStars
    levelsCompleted := p.levelsCompleted.getD base.levelsCompleted
    highScores := p.highScores.getD base.highScores
    preferences := p.preferences.getD base.preferences }

/-- `ProgressManager.loadProgress` (lines 693-717).  `localStorage.getItem`
is the `stored` parameter (`none` = no entry); `JSON.parse` is the
`parseJson` parameter, with `none` modelling a thrown SyntaxError, which
the `catch` turns into a `false` return with the in-memory record left
untouched.  The current in-memory persistent record is `pd`; the fresh
defaults built inside the merge use `freshId`/`now`. -/
def loadProgress (parseJson : String → Option ParsedStored) (freshId : String)
    (now : Int) (stored : Option String) (pd : PersistentData) :
    Bool × PersistentData :=
  match stored with
  | none => (false, pd)
  | some s =>
    match parseJson s with
    | none => (false, pd)
    | some data =>
      match data.persistent with
      | some p => (true, mergePersistent (getDefaultPersistentData freshId now) p)
      | none => (true, pd)

end ProgressManager

/-! Concrete sample data used by witness theorems. -/

/-- The `sub_easy_001` template of the default question bank. -/
def subEasyTemplate : Template :=
  { id := "sub_easy_001", qtype := "equation", operation := "subtraction"
    template := "{a} - {b} = ?", minValue := 0, maxValue := 10
    visualHint := true, hintType := some "bananas" }

/-- A minimal addition template with id `a` (for draw-sequence witnesses). -/
def tmplA : Template :=
  { id := "a", qtype := "equation", operation := "addition"
    template := "{a} + {b} = ?", minValue := 0, maxValue := 5 }

/-- A minimal addition template with id `b` (for draw-sequence witnesses). -/
def tmplB : Template :=
  { id := "b", qtype := "equation", operation := "addition"
    template := "{a} + {b} = ?", minValue := 0, maxValue := 5 }

/-- One nondeterministic draw of `getNextQuestion` at a fixed tier, projected
to what the anti-repetition argument needs: some template of the candidate
set (`questionPoolOf`) is chosen, its id is recorded through
`addToRecentQuestions`. -/
def DrawStep (pool : List Template) (recent : List String) (tid : String)
    (recent' : List String) : Prop :=
  (∃ t ∈ MathEngine.questionPoolOf pool recent, t.id = tid) ∧
  recent' = MathEngine.addToRecentQuestions recent tid

/-- The session-counter invariant of the Progress Model. -/
def sessionInvariant (sd : ProgressManager.SessionData) : Prop :=
  sd.totalAnswers = sd.correctAnswers + sd.incorrectAnswers

/-- The three answer counters of a session record, bundled for "this
operation does not touch the counters" statements. -/
def countersOf (sd : ProgressManager.SessionData) : Nat × Nat × Nat :=
  (sd.totalAnswers, sd.correctAnswers, sd.incorrectAnswers)

end GorillaMath

namespace GorillaMath

/-- C1: for every subtraction template and operands `a`, `b` sampled in the
template's range, the generated answer is `max a b - min a b`, hence
non-negative, and the rendered text substitutes the larger operand into the
`{a}` placeholder (the first placeholder of every template in the
repository's banks) and the smaller into `{b}`. -/
theorem generateQuestion_subtraction_spec
    (d : String) (t : Template) (a b : Int) (now : Nat)
    (hop : t.operation = "subtraction")
    (ha1 : t.minValue ≤ a) (ha2 : a ≤ t.maxValue)
    (hb1 : t.minValue ≤ b) (hb2 : b ≤ t.maxValue) :
    (MathEngine.generateQuestion d t a b now).answer = max a b - min a b ∧
    0 ≤ (MathEngine.generateQuestion d t a b now).answer ∧
    (MathEngine.generateQuestion d t a b now).questionText =
      replaceFirst (replaceFirst t.template "{a}" (toString (max a b)))
        "{b}" (toString (min a b)) := by
  have hne : t.operation = "addition" → False := by
    rw [hop]; intro h; exact absurd h (by decide)
  refine ⟨?_, ?_, ?_⟩
  · simp only [MathEngine.generateQuestion]
    rw [if_neg hne, if_pos hop]
  · simp only [MathEngine.generateQuestion]
    rw [if_neg hne, if_pos hop]
    have := min_le_max (a := a) (b := b)
    omega
  · simp only [MathEngine.generateQuestion]
    rw [if_pos hop]

/-- C1 witness: the theorem applied at the `sub_easy_001` template with
operands 3 and 7. -/
theorem generateQuestion_subtraction_check :
    (MathEngine.generateQuestion "easy" subEasyTemplate 3 7 0).answer =
      max 3 7 - min 3 7 ∧
    0 ≤ (MathEngine.generateQuestion "easy" subEasyTemplate 3 7 0).answer ∧
    (MathEngine.generateQuestion "easy" subEasyTemplate 3 7 0).questionText =
      replaceFirst
        (replaceFirst subEasyTemplate.template "{a}" (toString (max (3:Int) 7)))
        "{b}" (toString (min (3:Int) 7)) :=
  generateQuestion_subtraction_spec "easy" subEasyTemplate 3 7 0 rfl
    (by decide) (by decide) (by decide) (by decide)

/-- C3: `calculateAccuracy` is `correct / total * 100` with the explicit
zero-total edge case returning 0 (and hence 0 stars), and `calculateStars`
maps accuracy through the inclusive thresholds 95/80/60. -/
theorem accuracy_stars_spec (sd : ProgressManager.SessionData) :
    (sd.totalAnswers = 0 →
      ProgressManager.calculateAccuracy sd = 0 ∧
      ProgressManager.calculateStars sd = 0) ∧
    (sd.totalAnswers ≠ 0 →
      ProgressManager.calculateAccuracy sd =
        (sd.correctAnswers : ℚ) / (sd.totalAnswers : ℚ) * 100) ∧
    (ProgressManager.calculateStars sd = 3 ↔
      95 ≤ ProgressManager.calculateAccuracy sd) ∧
    (ProgressManager.calculateStars sd = 2 ↔
      80 ≤ ProgressManager.calculateAccuracy sd ∧
      ProgressManager.calculateAccuracy sd < 95) ∧
    (ProgressManager.calculateStars sd = 1 ↔
      60 ≤ ProgressManager.calculateAccuracy sd ∧
      ProgressManager.calculateAccuracy sd < 80) ∧
    (ProgressManager.calculateStars sd = 0 ↔
      ProgressManager.calculateAccuracy sd < 60) := by
  have hstars : ProgressManager.calculateStars sd =
      (if 95 ≤ ProgressManager.calculateAccuracy sd then 3
       else if 80 ≤ ProgressManager.calculateAccuracy sd then 2
       else if 60 ≤ ProgressManager.calculateAccuracy sd then 1 else 0) := rfl
  refine ⟨?_, ?_, ?_, ?_, ?_, ?_⟩
  · intro h
    have ha : ProgressManager.calculateAccuracy sd = 0 := by
      simp [ProgressManager.calculateAccuracy, h]
    refine ⟨ha, ?_⟩
    rw [hstars, ha]
    norm_num
  · intro h
    simp [ProgressManager.calculateAccuracy, h]
  · rw [hstars]
    split_ifs with h1 h2 h3
    · exact ⟨fun _ => h1, fun _ => rfl⟩
    · exact ⟨fun hx => absurd hx (by norm_num), fun hx => (h1 hx).elim⟩
    · exact ⟨fun hx => absurd hx (by norm_num), fun hx => (h1 hx).elim⟩
    · exact ⟨fun hx => absurd hx (by norm_num), fun hx => (h1 hx).elim⟩
  · rw [hstars]
    split_ifs with h1 h2 h3
    · constructor
      · intro hx
        exact absurd hx (by norm_num)
      · rintro ⟨-, hlt⟩
        exact ((not_lt.mpr h1) hlt).elim
    · exact ⟨fun _ => ⟨h2, not_le.mp h1⟩, fun _ => rfl⟩
    · constructor
      · intro hx
        exact absurd hx (by norm_num)
      · rintro ⟨h80, -⟩
        exact (h2 h80).elim
    · constructor
      · intro hx
        exact absurd hx (by norm_num)
      · rintro ⟨h80, -⟩
        exact (h2 h80).elim
  · rw [hstars]
    split_ifs with h1 h2 h3
    · constructor
      · intro hx
        exact absurd hx (by norm_num)
      · rintro ⟨-, hlt⟩
        exact absurd hlt (by linarith)
    · constructor
      · intro hx
        exact absurd hx (by norm_num)
      · rintro ⟨-, hlt⟩
        exact ((not_lt.mpr h2) hlt).elim
    · exact ⟨fun _ => ⟨h3, not_le.mp h2⟩, fun _ => rfl⟩
    · constructor
      · intro hx
        exact absurd hx (by norm_num)
      · rintro ⟨h60, -⟩
        exact (h3 h60).elim
  · rw [hstars]
    split_ifs with h1 h2 h3
    · exact ⟨fun hx => absurd hx (by norm_num),
        fun hlt => ((not_lt.mpr (by linarith)) hlt).elim⟩
    · exact ⟨fun hx => absurd hx (by norm_num),
        fun hlt => ((not_lt.mpr (by linarith)) hlt).elim⟩
    · exact ⟨fun hx => absurd hx (by norm_num),
        fun hlt => ((not_lt.mpr (by linarith)) hlt).elim⟩
    · exact ⟨fun _ => not_le.mp h3, fun _ => rfl⟩

/-- C3 witness: the theorem applied at a session with 2 correct answers out
of 3 (accuracy 200/3 ≈ 66.7) yields exactly 1 star, and at a fresh session
(0 answers) yields accuracy 0 and 0 stars. -/
theorem accuracy_stars_check :
    ProgressManager.calculateStars
      { ProgressManager.getDefaultSessionData 0 with
        correctAnswers := 2, incorrectAnswers := 1, totalAnswers := 3 } = 1 ∧
    ProgressManager.calculateAccuracy (ProgressManager.getDefaultSessionData 0) = 0 ∧
    ProgressManager.calculateStars (ProgressManager.getDefaultSessionData 0) = 0 := by
  refine ⟨?_, ?_, ?_⟩
  · exact (accuracy_stars_spec _).2.2.2.2.1.mpr
      (by norm_num [ProgressManager.calculateAccuracy,
        ProgressManager.getDefaultSessionData])
  · exact ((accuracy_stars_spec (ProgressManager.getDefaultSessionData 0)).1 rfl).1
  · exact ((accuracy_stars_spec (ProgressManager.getDefaultSessionData 0)).1 rfl).2

/-- C5 counterexample: `setDifficulty` is case-sensitive and its invalid
branch returns before the recent-question window is cleared, so the input
`"MEDIUM"` on a state with a non-empty window neither selects the medium
tier nor clears the window. -/
theorem setDifficulty_case_cex :
    (MathEngine.setDifficulty
      { questionBank := none, currentDifficulty := "easy"
        recentQuestions := ["q1"], currentQuestion := none }
      "MEDIUM").currentDifficulty ≠ "medium" ∧
    (MathEngine.setDifficulty
      { questionBank := none, currentDifficulty := "easy"
        recentQuestions := ["q1"], currentQuestion := none }
      "MEDIUM").recentQuestions ≠ [] := by
  constructor <;> decide

/-- C5 amended: exactly the lowercase strings "easy"/"medium"/"hard" are
accepted; a matching call sets that tier and clears the recent-question
window; any other input (including other casings) sets the tier to "easy"
and leaves the window untouched. -/
theorem setDifficulty_spec (st : MathEngine.EngineState) (level : String) :
    (level ∈ MathEngine.validLevels ↔
      level = "easy" ∨ level = "medium" ∨ level = "hard") ∧
    (level ∈ MathEngine.validLevels →
      MathEngine.setDifficulty st level =
        { st with currentDifficulty := level, recentQuestions := [] }) ∧
    (level ∉ MathEngine.validLevels →
      MathEngine.setDifficulty st level =
        { st with currentDifficulty := "easy" }) := by
  refine ⟨by simp [MathEngine.validLevels], ?_, ?_⟩
  · intro h
    simp [MathEngine.setDifficulty, h]
  · intro h
    simp [MathEngine.setDifficulty, h]

/-- C5 witness: the amended theorem applied at `"medium"` (accepted: sets the
tier, clears the window) and at `"MEDIUM"` (rejected: falls back to easy,
window untouched). -/
theorem setDifficulty_check :
    MathEngine.setDifficulty
      { questionBank := none, currentDifficulty := "easy"
        recentQuestions := ["q1"], currentQuestion := none } "medium" =
      { questionBank := none, currentDifficulty := "medium"
        recentQuestions := [], currentQuestion := none } ∧
    MathEngine.setDifficulty
      { questionBank := none, currentDifficulty := "easy"
        recentQuestions := ["q1"], currentQuestion := none } "MEDIUM" =
      { questionBank := none, currentDifficulty := "easy"
        recentQuestions := ["q1"], currentQuestion := none } :=
  ⟨(setDifficulty_spec _ "medium").2.1 (by decide),
   (setDifficulty_spec _ "MEDIUM").2.2 (by decide)⟩

/-- C6: the sanitization actually applied by `MathEngine.validateAnswer`
(`MathEngine.sanitizeInput`) keeps interior minus signs — on "1-5" it
returns "1-5", where the spec, the validators.js `sanitizeInput`, and the
repository's own unit test (MathEngine.test.js line 327, which expects
"15") all require interior minus signs to trigger removal of every minus
sign.  The validators.js implementation does satisfy the claimed algorithm
on the same inputs. -/
theorem sanitizeInput_divergence :
    MathEngine.sanitizeInput "1-5" = "1-5" ∧
    Validators.sanitizeInput "1-5" = "15" ∧
    Validators.sanitizeInput "12-34" = "1234" ∧
    Validators.sanitizeInput "--15" = "-15" ∧
    Validators.sanitizeInput "---20" = "-20" ∧
    MathEngine.sanitizeInput "  12abc  " = "12" := by
  refine ⟨?_, ?_, ?_, ?_, ?_, ?_⟩ <;> decide

/-- C9: when the stored entry's JSON fails to parse, `loadProgress` returns
`false` and leaves the in-memory persistent record untouched — exactly the
behavior of the no-stored-entry path. -/
theorem loadProgress_corrupt_spec
    (parseJson : String → Option ProgressManager.ParsedStored)
    (freshId : String) (now : Int) (s : String)
    (pd : ProgressManager.PersistentData)
    (hbad : parseJson s = none) :
    ProgressManager.loadProgress parseJson freshId now (some s) pd = (false, pd) ∧
    ProgressManager.loadProgress parseJson freshId now none pd = (false, pd) := by
  constructor
  · simp [ProgressManager.loadProgress, hbad]
  · rfl

/-- C9 witness: the theorem applied at a parser that rejects the concrete
entry "not-json", with the record at its default values. -/
theorem loadProgress_corrupt_check :
    ProgressManager.loadProgress (fun _ => none) "p1" 0 (some "not-json")
      (ProgressManager.getDefaultPersistentData "p1" 0) =
      (false, ProgressManager.getDefaultPersistentData "p1" 0) ∧
    ProgressManager.loadProgress (fun _ => none) "p1" 0 none
      (ProgressManager.getDefaultPersistentData "p1" 0) =
      (false, ProgressManager.getDefaultPersistentData "p1" 0) :=
  loadProgress_corrupt_spec (fun _ => none) "p1" 0 "not-json"
    (ProgressManager.getDefaultPersistentData "p1" 0) rfl

/-- C10: the three answer counters start at 0 (so the invariant
`totalAnswers = correctAnswers + incorrectAnswers` holds) in a default,
freshly started, or reset session; `recordAnswer` adds 1 to `totalAnswers`
and to exactly one of the other two, preserving the invariant; and no other
session operation (`incrementScore`, `addBananas`, `nextQuestion`,
`updateElapsedTime`, `completeSession`) modifies any of the three. -/
theorem session_counters_invariant :
    (∀ now, countersOf (ProgressManager.getDefaultSessionData now) = (0, 0, 0)) ∧
    (∀ now d tq, countersOf (ProgressManager.startSession now d tq) = (0, 0, 0)) ∧
    (∀ now, countersOf (ProgressManager.resetSession now) = (0, 0, 0)) ∧
    (∀ sd b,
      (ProgressManager.recordAnswer sd b).totalAnswers = sd.totalAnswers + 1 ∧
      (ProgressManager.recordAnswer sd b).correctAnswers =
        sd.correctAnswers + (if b then 1 else 0) ∧
      (ProgressManager.recordAnswer sd b).incorrectAnswers =
        sd.incorrectAnswers + (if b then 0 else 1) ∧
      (sessionInvariant sd → sessionInvariant (ProgressManager.recordAnswer sd b))) ∧
    (∀ sd p, countersOf (ProgressManager.incrementScore sd p) = countersOf sd) ∧
    (∀ sd c, countersOf (ProgressManager.addBananas sd c) = countersOf sd) ∧
    (∀ sd, countersOf (ProgressManager.nextQuestion sd) = countersOf sd) ∧
    (∀ now sd, countersOf (ProgressManager.updateElapsedTime now sd) = countersOf sd) ∧
    (∀ now sd pd r, ProgressManager.completeSession now sd pd = some r →
      countersOf r.2.1 = countersOf sd) := by
  refine ⟨?_, ?_, ?_, ?_, ?_, ?_, ?_, ?_, ?_⟩
  · intro now
    rfl
  · intro now d tq
    rfl
  · intro now
    rfl
  · intro sd b
    cases b <;>
      simp [ProgressManager.recordAnswer, sessionInvariant] <;> omega
  · intro sd p
    by_cases hp : p < 0 <;> simp [ProgressManager.incrementScore, hp, countersOf]
  · intro sd c
    by_cases hc : c < 0 <;> simp [ProgressManager.addBananas, hc, countersOf]
  · intro sd
    rfl
  · intro now sd
    rfl
  · intro now sd pd r h
    simp only [ProgressManager.completeSession] at h
    split at h
    · exact absurd h (by simp)
    · injection h with h
      subst h
      rfl

/-- C10 witness: the theorem applied at a fresh session: one correct answer
recorded on the default session yields counters (1, 1, 0) and keeps the
invariant. -/
theorem session_counters_check :
    countersOf (ProgressManager.getDefaultSessionData 0) = (0, 0, 0) ∧
    sessionInvariant
      (ProgressManager.recordAnswer (ProgressManager.getDefaultSessionData 0) true) :=
  ⟨session_counters_invariant.1 0,
   (session_counters_invariant.2.2.2.1 (ProgressManager.getDefaultSessionData 0)
      true).2.2.2 rfl⟩

/-- Updating the binding of `k` in an association list changes exactly the
value looked up at `k` (when present). -/
theorem lookup_updateAssoc {β : Type} (l : List (String × β)) (k : String) (v : β) :
    List.lookup k (ProgressManager.updateAssoc l k v) =
      (List.lookup k l).map (fun _ => v) := by
  induction l with
  | nil => rfl
  | cons p rest ih =>
    obtain ⟨k', v'⟩ := p
    by_cases hk : k' = k
    · subst hk
      simp [ProgressManager.updateAssoc, List.lookup]
    · have hbeq : (k == k') = false :=
        beq_eq_false_iff_ne.mpr (fun hkk => hk hkk.symm)
      simp [ProgressManager.updateAssoc, hk, List.lookup, hbeq, ih]

/-- C8: `completeSession` updates the per-tier high score to
`max (existing, session score)`; in particular it never decreases. -/
theorem completeSession_highScore (now : Int) (sd : ProgressManager.SessionData)
    (pd : ProgressManager.PersistentData) (h : Int) (lv : List Nat)
    (hhs : List.lookup sd.difficulty pd.highScores = some h)
    (hlv : List.lookup sd.difficulty pd.levelsCompleted = some lv) :
    (ProgressManager.completeSession now sd pd).map
      (fun r => List.lookup sd.difficulty r.2.2.highScores) =
      some (some (max h sd.score)) := by
  simp only [ProgressManager.completeSession, ProgressManager.updateElapsedTime, hhs, hlv]
  by_cases hgt : sd.score > h
  · rw [if_pos hgt]
    by_cases hc : lv.length + 1 ∈ lv <;>
      simp [hlv, hc, lookup_updateAssoc, hhs, max_eq_right (le_of_lt hgt)]
  · rw [if_neg hgt]
    by_cases hc : lv.length + 1 ∈ lv <;>
      simp [hlv, hc, hhs, max_eq_left (not_lt.mp hgt)]

/-- C8 witness: the theorem applied after an easy-tier session that already
holds high score 500, completing a session scoring 300: the stored value is
`max 500 300 = 500` — the high score did not decrease. -/
theorem completeSession_highScore_check :
    (ProgressManager.completeSession 0
        { ProgressManager.getDefaultSessionData 0 with score := 300 }
        { ProgressManager.getDefaultPersistentData "p1" 0 with
          highScores := [("easy", 500), ("medium", 0), ("hard", 0)] }).map
      (fun r => List.lookup "easy" r.2.2.highScores) =
      some (some (max 500 300)) ∧
    max (500 : Int) 300 = 500 :=
  ⟨completeSession_highScore 0
      { ProgressManager.getDefaultSessionData 0 with score := 300 }
      { ProgressManager.getDefaultPersistentData "p1" 0 with
        highScores := [("easy", 500), ("medium", 0), ("hard", 0)] }
      500 [] rfl rfl,
   by decide⟩

/-- Pushing the same id three times through the 3-bounded FIFO leaves the
window equal to three copies of that id (for any start of length ≤ 3). -/
theorem addToRecentQuestions_three (r : List String) (y : String)
    (hlen : r.length ≤ 3) :
    MathEngine.addToRecentQuestions
      (MathEngine.addToRecentQuestions
        (MathEngine.addToRecentQuestions r y) y) y = [y, y, y] := by
  match r, hlen with
  | [], _ => rfl
  | [a], _ => rfl
  | [a, b], _ => rfl
  | [a, b, c], _ => rfl

/-- The FIFO bound is an invariant of every push. -/
theorem addToRecentQuestions_length (r : List String) (y : String)
    (hlen : r.length ≤ 3) :
    (MathEngine.addToRecentQuestions r y).length ≤ 3 := by
  simp only [MathEngine.addToRecentQuestions, MathEngine.maxRecentQuestions]
  split
  · rename_i h
    simp only [List.length_drop, List.length_append, List.length_singleton]
    omega
  · rename_i h
    simp only [List.length_append, List.length_singleton] at h ⊢
    omega

/-- C4: in any 4 consecutive draws at a fixed tier whose pool holds at least
2 distinct template ids (and a recent-question window within its bound of
3, as every reachable window is), the drawn template ids cannot all be
equal — at least 2 distinct ids appear. -/
theorem anti_repetition_four_draws
    (pool : List Template) (r0 r1 r2 r3 r4 : List String)
    (t1 t2 t3 t4 : String)
    (hlen : r0.length ≤ 3)
    (hdis : ∃ x ∈ pool, ∃ y ∈ pool, x.id ≠ y.id)
    (h1 : DrawStep pool r0 t1 r1) (h2 : DrawStep pool r1 t2 r2)
    (h3 : DrawStep pool r2 t3 r3) (h4 : DrawStep pool r3 t4 r4) :
    t1 ≠ t2 ∨ t2 ≠ t3 ∨ t3 ≠ t4 := by
  by_contra hcon
  push_neg at hcon
  obtain ⟨e12, e23, e34⟩ := hcon
  subst e34
  subst e23
  subst e12
  have hr1 : r1 = MathEngine.addToRecentQuestions r0 t1 := h1.2
  have hr2 : r2 = MathEngine.addToRecentQuestions r1 t1 := h2.2
  have hr3 : r3 = [t1, t1, t1] := by
    rw [h3.2, hr2, hr1]
    exact addToRecentQuestions_three r0 t1 hlen
  obtain ⟨t, htmem, htid⟩ := h4.1
  obtain ⟨w, hwmem, hwid⟩ : ∃ w ∈ pool, w.id ≠ t1 := by
    obtain ⟨x, hx, y, hy, hxy⟩ := hdis
    by_cases hxt : x.id = t1
    · exact ⟨y, hy, fun hyt => hxy (hxt.trans hyt.symm)⟩
    · exact ⟨x, hx, hxt⟩
  have havail : w ∈ MathEngine.availableOf pool r3 := by
    rw [hr3]
    simp [MathEngine.availableOf, hwmem, hwid]
  have hpos : 0 < (MathEngine.availableOf pool r3).length :=
    List.length_pos.mpr (fun hnil => by simp [hnil] at havail)
  have hqp : MathEngine.questionPoolOf pool r3 = MathEngine.availableOf pool r3 := by
    simp [MathEngine.questionPoolOf, hpos]
  rw [hqp] at htmem
  rw [hr3] at htmem
  simp [MathEngine.availableOf] at htmem
  exact htmem.2 htid

/-- C4 witness: the theorem applied to a concrete 4-draw run over the
two-template pool `[tmplA, tmplB]` starting from an empty window. -/
theorem anti_repetition_check :
    ("a" : String) ≠ "b" ∨ ("b" : String) ≠ "a" ∨ ("a" : String) ≠ "b" :=
  anti_repetition_four_draws [tmplA, tmplB]
    [] ["a"] ["a", "b"] ["a", "b", "a"] ["b", "a", "b"]
    "a" "b" "a" "b"
    (by decide)
    ⟨tmplA, by decide, tmplB, by decide, by decide⟩
    ⟨⟨tmplA, by decide, rfl⟩, by decide⟩
    ⟨⟨tmplB, by decide, rfl⟩, by decide⟩
    ⟨⟨tmplA, by decide, rfl⟩, by decide⟩
    ⟨⟨tmplB, by decide, rfl⟩, by decide⟩

/-- C7 counterexample: with an empty pool for the active tier, the engine
returns a (non-null) fallback question, but it is NOT stored as the
engine's current question — `currentQuestion` stays `none`, refuting
"in every case the returned question is stored". -/
theorem getNextQuestion_fallback_cex :
    (MathEngine.getNextQuestion
      { questionBank := some [("easy", [])], currentDifficulty := "easy"
        recentQuestions := [], currentQuestion := none } 0 1 2 7).1 ≠ none ∧
    (MathEngine.getNextQuestion
      { questionBank := some [("easy", [])], currentDifficulty := "easy"
        recentQuestions := [], currentQuestion := none } 0 1 2 7).2.currentQuestion ≠
    (MathEngine.getNextQuestion
      { questionBank := some [("easy", [])], currentDifficulty := "easy"
        recentQuestions := [], currentQuestion := none } 0 1 2 7).1 := by
  constructor <;> decide

/-- C7 amended: `getNextQuestion` always returns a question (never `none`);
when the active tier's pool exists and is non-empty the returned question
is stored as the engine's current question, but on the fallback path
(missing or empty pool) the previous current question is left in place. -/
theorem getNextQuestion_spec (st : MathEngine.EngineState) (choice : Nat)
    (a b : Int) (now : Nat) :
    (MathEngine.getNextQuestion st choice a b now).1 ≠ none ∧
    (∀ pool,
      List.lookup st.currentDifficulty
        (st.questionBank.getD MathEngine.getDefaultQuestionBank) = some pool →
      pool ≠ [] →
      (MathEngine.getNextQuestion st choice a b now).2.currentQuestion =
        (MathEngine.getNextQuestion st choice a b now).1) ∧
    ((List.lookup st.currentDifficulty
        (st.questionBank.getD MathEngine.getDefaultQuestionBank) = none ∨
      List.lookup st.currentDifficulty
        (st.questionBank.getD MathEngine.getDefaultQuestionBank) =
        some ([] : List Template)) →
      (MathEngine.getNextQuestion st choice a b now).2.currentQuestion =
        st.currentQuestion) := by
  rcases hl : List.lookup st.currentDifficulty
      (st.questionBank.getD MathEngine.getDefaultQuestionBank) with _ | pool
  · refine ⟨?_, ?_, ?_⟩
    · simp [MathEngine.getNextQuestion, hl]
    · intro pool hp
      exact absurd hp (by simp)
    · intro hsome
      simp [MathEngine.getNextQuestion, hl]
  · by_cases hnil : pool.length = 0
    · have hpe : pool = [] := List.length_eq_zero.mp hnil
      subst hpe
      refine ⟨?_, ?_, ?_⟩
      · simp [MathEngine.getNextQuestion, hl]
      · intro pool2 hp2 hne
        injection hp2 with hp2
        exact absurd hp2.symm hne
      · intro hsome
        simp [MathEngine.getNextQuestion, hl]
    · have hqp : 0 < (MathEngine.questionPoolOf pool st.recentQuestions).length := by
        simp only [MathEngine.questionPoolOf]
        split
        · rename_i hav
          exact hav
        · omega
      have hget : ∃ t, MathEngine.getRandomElement
          (MathEngine.questionPoolOf pool st.recentQuestions) choice = some t := by
        simp [MathEngine.getRandomElement, hqp]
      obtain ⟨t, hget⟩ := hget
      refine ⟨?_, ?_, ?_⟩
      · simp [MathEngine.getNextQuestion, hl, hnil, hget]
      · intro pool2 hp2 hne
        simp [MathEngine.getNextQuestion, hl, hnil, hget]
      · intro hsome
        rcases hsome with hnone | hempty
        · exact absurd hnone (by simp)
        · injection hempty with hempty
          subst hempty
          exact absurd rfl hnil

/-- C7 witness: the amended theorem applied at a one-template bank (the
question is returned and stored) and at a missing-tier bank (the fallback
question is returned and the stored current question is unchanged). -/
theorem getNextQuestion_check :
    (MathEngine.getNextQuestion
      { questionBank := some [("easy", [tmplA])], currentDifficulty := "easy"
        recentQuestions := [], currentQuestion := none } 0 1 2 7).2.currentQuestion =
      (MathEngine.getNextQuestion
        { questionBank := some [("easy", [tmplA])], currentDifficulty := "easy"
          recentQuestions := [], currentQuestion := none } 0 1 2 7).1 ∧
    (MathEngine.getNextQuestion
      { questionBank := some [("medium", [tmplA])], currentDifficulty := "easy"
        recentQuestions := [], currentQuestion := none } 0 1 2 7).2.currentQuestion =
      none :=
  ⟨(getNextQuestion_spec
      { questionBank := some [("easy", [tmplA])], currentDifficulty := "easy"
        recentQuestions := [], currentQuestion := none } 0 1 2 7).2.1
      [tmplA] rfl (by decide),
   (getNextQuestion_spec
      { questionBank := some [("medium", [tmplA])], currentDifficulty := "easy"
        recentQuestions := [], currentQuestion := none } 0 1 2 7).2.2
      (Or.inl rfl)⟩

/-- A digit character is not whitespace, not a minus, and not a plus. -/
theorem isDigit_not_special (c : Char) (h : c.isDigit = true) :
    isJsSpace c = false ∧ c ≠ '-' ∧ c ≠ '+' := by
  refine ⟨?_, ?_, ?_⟩
  · by_contra hs
    simp only [Bool.not_eq_false, isJsSpace, Bool.or_eq_true,
      decide_eq_true_eq] at hs
    rcases hs with ((((h1 | h1) | h1) | h1) | h1) | h1 <;> subst h1 <;>
      exact absurd h (by decide)
  · rintro rfl
    exact absurd h (by decide)
  · rintro rfl
    exact absurd h (by decide)

/-- `parseIntJS` on a string of digit characters only. -/
theorem parseIntJS_digits (l : List Char) (hall : l.all Char.isDigit = true) :
    parseIntJS ⟨l⟩ =
      if l.isEmpty then none else some ((digitsToNat l : Int)) := by
  cases l with
  | nil => rfl
  | cons c r =>
    have hc : c.isDigit = true := (List.all_eq_true.mp hall) c (by simp)
    obtain ⟨hs, hm, hp⟩ := isDigit_not_special c hc
    have hdrop : (c :: r).dropWhile isJsSpace = c :: r := by
      rw [List.dropWhile_cons, hs]
      simp
    have htake : (c :: r).takeWhile Char.isDigit = c :: r :=
      List.takeWhile_eq_self_iff.mpr (fun x hx => (List.all_eq_true.mp hall) x hx)
    simp [parseIntJS, hdrop, htake, hm, hp]

/-- `parseIntJS` on a leading minus followed by digit characters only. -/
theorem parseIntJS_neg_digits (l : List Char) (hall : l.all Char.isDigit = true) :
    parseIntJS ⟨'-' :: l⟩ =
      if l.isEmpty then none else some (-(digitsToNat l : Int)) := by
  have hsm : isJsSpace '-' = false := by decide
  have hdrop : ('-' :: l).dropWhile isJsSpace = '-' :: l := by
    rw [List.dropWhile_cons, hsm]
    simp
  have htake : l.takeWhile Char.isDigit = l :=
    List.takeWhile_eq_self_iff.mpr (fun x hx => (List.all_eq_true.mp hall) x hx)
  by_cases he : l = []
  · subst he
    rfl
  · have hne : l.isEmpty = false := by simpa [List.isEmpty_iff] using he
    simp [parseIntJS, hdrop, htake, hne, neg_one_mul]

/-- Every character surviving stage 1 of the validators sanitizer is a digit
or a minus sign. -/
theorem stripNonNumeric_mem (l : List Char) :
    ∀ c ∈ Validators.stripNonNumeric l, c.isDigit = true ∨ c = '-' := by
  intro c hc
  have h := (List.mem_filter.mp hc).2
  simpa using h

/-- Shape of stages 2 and 3 of the validators sanitizer on any list of
digits and minus signs: either all digits, or a single leading minus
followed by digits. -/
theorem sanitizeStages_shape (l0 : List Char)
    (h0 : ∀ c ∈ l0, c.isDigit = true ∨ c = '-') :
    ((Validators.collapseMinus (Validators.dropMisplacedMinus l0)).all
        Char.isDigit = true) ∨
    (∃ ds, Validators.collapseMinus (Validators.dropMisplacedMinus l0) =
        '-' :: ds ∧ ds.all Char.isDigit = true) := by
  have hm : ∀ c ∈ Validators.dropMisplacedMinus l0, c.isDigit = true ∨ c = '-' := by
    intro c hc
    unfold Validators.dropMisplacedMinus at hc
    split at hc
    · exact h0 c (List.mem_filter.mp hc).1
    · exact h0 c hc
  set m := Validators.dropMisplacedMinus l0 with hmdef
  unfold Validators.collapseMinus
  by_cases hcnt : m.count '-' + 1 > 2
  · rw [if_pos hcnt]
    right
    refine ⟨m.filter (fun c => c ≠ '-'), rfl, ?_⟩
    rw [List.all_eq_true]
    intro c hc
    have hcm := List.mem_filter.mp hc
    rcases hm c hcm.1 with hd | he
    · exact hd
    · exact absurd he (by simpa using hcm.2)
  · rw [if_neg hcnt]
    by_cases hnc : l0.contains '-' = true
    · by_cases hA : (l0.contains '-' &&
          decide (0 < (l0.takeWhile (fun c => c ≠ '-')).length)) = true
      · left
        rw [List.all_eq_true]
        intro c hc
        rw [hmdef] at hc
        unfold Validators.dropMisplacedMinus at hc
        rw [if_pos hA] at hc
        have hcm := List.mem_filter.mp hc
        rcases h0 c hcm.1 with hd | he
        · exact hd
        · exact absurd he (by simpa using hcm.2)
      · have hml : m = l0 := by
          rw [hmdef]
          unfold Validators.dropMisplacedMinus
          rw [if_neg hA]
        have hlen : ¬ (0 < (l0.takeWhile (fun c => (c ≠ '-' : Bool))).length) := by
          intro hpos
          refine hA ?_
          rw [hnc]
          simp only [Bool.true_and]
          exact decide_eq_true hpos
        obtain ⟨c0, r0, hcr⟩ : ∃ c0 r0, l0 = c0 :: r0 := by
          cases hl : l0 with
          | nil =>
            rw [hl] at hnc
            exact absurd hnc (by simp)
          | cons x xs => exact ⟨x, xs, rfl⟩
        have hc0 : c0 = '-' := by
          by_contra hne
          apply hlen
          rw [hcr, List.takeWhile_cons]
          simp [hne]
        subst hc0
        right
        refine ⟨r0, by rw [hml, hcr], ?_⟩
        have hcount : r0.count '-' = 0 := by
          rw [hml, hcr] at hcnt
          simp only [List.count_cons_self] at hcnt
          omega
        have hnotin : '-' ∉ r0 := by
          rw [← List.count_eq_zero]
          exact hcount
        rw [List.all_eq_true]
        intro c hc
        rcases h0 c (by rw [hcr]; exact List.mem_cons_of_mem _ hc) with hd | he
        · exact hd
        · exact absurd (he ▸ hc) hnotin
    · left
      have hcf : l0.contains '-' = false := by
        cases hcv : l0.contains '-'
        · rfl
        · exact absurd hcv hnc
      have hAf : (l0.contains '-' &&
          decide (0 < (l0.takeWhile (fun c => (c ≠ '-' : Bool))).length)) = false := by
        rw [hcf, Bool.false_and]
      have hml : m = l0 := by
        rw [hmdef]
        unfold Validators.dropMisplacedMinus
        rw [if_neg (by rw [hAf]; exact Bool.false_ne_true)]
      rw [List.all_eq_true]
      intro c hc
      rcases hm c hc with hd | he
      · exact hd
      · subst he
        rw [hml] at hc
        exact absurd (List.elem_iff.mpr hc) hnc

/-- Shape of the validators sanitizer output: either all digits, or a single
leading minus followed by digits. -/
theorem valSanitize_shape (s : String) :
    ((Validators.sanitizeInput s).data.all Char.isDigit = true) ∨
    (∃ ds, (Validators.sanitizeInput s).data = '-' :: ds ∧
      ds.all Char.isDigit = true) :=
  sanitizeStages_shape (Validators.stripNonNumeric (jsTrim s).data)
    (stripNonNumeric_mem _)

/-- If the sanitized string parses, the validators `isValidNumber` guard
accepts it. -/
theorem isValidNumber_of_parse (s : String) (p : Int)
    (h : parseIntJS (Validators.sanitizeInput s) = some p) :
    Validators.isValidNumber (Validators.sanitizeInput s) = true := by
  rcases valSanitize_shape s with hall | ⟨ds, hds, hall⟩
  · have hp := parseIntJS_digits (Validators.sanitizeInput s).data hall
    rw [hp] at h
    by_cases he : (Validators.sanitizeInput s).data.isEmpty
    · rw [if_pos he] at h
      exact absurd h (by simp)
    · unfold Validators.isValidNumber
      have hne : ¬ (Validators.sanitizeInput s = "") := by
        intro h0
        rw [h0] at he
        exact he rfl
      rw [if_neg hne]
      cases hd : (Validators.sanitizeInput s).data with
      | nil =>
        rw [hd] at he
        exact absurd rfl he
      | cons c r =>
        rw [hd] at hall
        have hc : c.isDigit = true := (List.all_eq_true.mp hall) c (by simp)
        obtain ⟨-, hmc, -⟩ := isDigit_not_special c hc
        rw [List.head?_cons, if_neg (by simp [hmc])]
        exact hall
  · have ht : Validators.sanitizeInput s = ⟨'-' :: ds⟩ := by
      rw [← hds]
    rw [ht] at h ⊢
    rw [parseIntJS_neg_digits ds hall] at h
    by_cases he : ds.isEmpty
    · rw [if_pos he] at h
      exact absurd h (by simp)
    · unfold Validators.isValidNumber
      have hne : ¬ ((⟨'-' :: ds⟩ : String) = "") := by
        intro h0
        have := congrArg String.data h0
        simp at this
      rw [if_neg hne]
      have hde : ds.isEmpty = false := by
        cases hh : ds.isEmpty
        · rfl
        · exact absurd hh he
      simp [hde, hall]

/-- C2: for every input whose sanitized form parses to an integer, both
`MathEngine.validateAnswer` and the validators.js `validateAnswer` return
`correct` exactly when the parsed value equals the expected one and `close`
exactly when the absolute difference is non-zero and at most 2; `correct`
and `close` are never both true. -/
theorem validateAnswer_grading_spec (input : String) (expected : Int)
    (cq : Option Question) (p q : Int)
    (hp : parseIntJS (MathEngine.sanitizeInput input) = some p)
    (hq : parseIntJS (Validators.sanitizeInput input) = some q) :
    ((MathEngine.validateAnswer input (some expected) cq).valid = true ∧
     ((MathEngine.validateAnswer input (some expected) cq).correct = true ↔
       p = expected) ∧
     ((MathEngine.validateAnswer input (some expected) cq).close = true ↔
       0 < (p - expected).natAbs ∧ (p - expected).natAbs ≤ 2) ∧
     ¬((MathEngine.validateAnswer input (some expected) cq).correct = true ∧
       (MathEngine.validateAnswer input (some expected) cq).close = true)) ∧
    ((Validators.validateAnswer input expected).valid = true ∧
     ((Validators.validateAnswer input expected).correct = true ↔
       q = expected) ∧
     ((Validators.validateAnswer input expected).close = true ↔
       0 < (q - expected).natAbs ∧ (q - expected).natAbs ≤ 2) ∧
     ¬((Validators.validateAnswer input expected).correct = true ∧
       (Validators.validateAnswer input expected).close = true)) := by
  have key : ∀ u e : Int,
      (((u == e) : Bool) = true ↔ u = e) ∧
      ((!(u == e) && decide ((u - e).natAbs ≤ 2)) = true ↔
        (0 < (u - e).natAbs ∧ (u - e).natAbs ≤ 2)) ∧
      ¬(((u == e) : Bool) = true ∧
        (!(u == e) && decide ((u - e).natAbs ≤ 2)) = true) := by
    intro u e
    have h0 : (u - e).natAbs = 0 ↔ u = e := by
      rw [Int.natAbs_eq_zero, sub_eq_zero]
    refine ⟨beq_iff_eq, ?_, ?_⟩
    · rw [Bool.and_eq_true, Bool.not_eq_true', beq_eq_false_iff_ne,
        decide_eq_true_eq]
      constructor
      · rintro ⟨hne, hle⟩
        exact ⟨Nat.pos_of_ne_zero (fun hz => hne (h0.mp hz)), hle⟩
      · rintro ⟨hpos, hle⟩
        exact ⟨fun heq => by rw [h0.mpr heq] at hpos; exact absurd hpos (by simp),
          hle⟩
    · rintro ⟨hc, hcl⟩
      rw [Bool.and_eq_true, Bool.not_eq_true'] at hcl
      rw [hc] at hcl
      exact absurd hcl.1 (by simp)
  constructor
  · have := key p expected
    simp only [MathEngine.validateAnswer, hp]
    exact ⟨by trivial, this.1, this.2.1, this.2.2⟩
  · have := key q expected
    have hguard := isValidNumber_of_parse input q hq
    simp only [Validators.validateAnswer, hguard, Bool.not_true, Bool.false_eq_true,
      if_false, ite_false, hq]
    exact ⟨by trivial, this.1, this.2.1, this.2.2⟩

/-- C2 witness: the theorem applied at input "7a" against expected value 5:
both validators sanitize to "7", parse 7, and report not-correct but close
(difference 2). -/
theorem validateAnswer_grading_check :
    ((MathEngine.validateAnswer "7a" (some 5) none).valid = true ∧
     ((MathEngine.validateAnswer "7a" (some 5) none).correct = true ↔
       (7 : Int) = 5) ∧
     ((MathEngine.validateAnswer "7a" (some 5) none).close = true ↔
       0 < ((7 : Int) - 5).natAbs ∧ ((7 : Int) - 5).natAbs ≤ 2) ∧
     ¬((MathEngine.validateAnswer "7a" (some 5) none).correct = true ∧
       (MathEngine.validateAnswer "7a" (some 5) none).close = true)) ∧
    ((Validators.validateAnswer "7a" 5).valid = true ∧
     ((Validators.validateAnswer "7a" 5).correct = true ↔ (7 : Int) = 5) ∧
     ((Validators.validateAnswer "7a" 5).close = true ↔
       0 < ((7 : Int) - 5).natAbs ∧ ((7 : Int) - 5).natAbs ≤ 2) ∧
     ¬((Validators.validateAnswer "7a" 5).correct = true ∧
       (Validators.validateAnswer "7a" 5).close = true)) :=
  validateAnswer_grading_spec "7a" 5 none 7 7 (by decide) (by decide)

end GorillaMath
